import Mathlib

/-!
Verification of the expense/budget tracker (src/backend.py, src/frontend.py).

The store (`DatabaseManager` in backend.py) is a thin wrapper over three SQL
tables: expenses, budgets, income.  We embed the database state as three lists
plus the SERIAL counter for expense ids, and each `DatabaseManager` method as a
function returning `Except PgError _`.  Every method in backend.py wraps its
SQL statements in `try: ... except psycopg2.Error: ...`; we model "psycopg2
raises during this operation" by an explicit `err : Bool` argument (for
`get_business_insights`, whose try-block runs eight statements in sequence, by
`failAt : Option Nat`, the index of the first failing statement).  The
`Except` layer makes "does not propagate an exception" a provable statement:
an uncaught error would surface as `Except.error`.

Amounts are embedded as `ℚ` (the schema stores exact fixed-point
DECIMAL(10,2) values; the spec mandates exact decimal arithmetic).
-/

namespace ExpenseTracker

/-- A calendar date (the DATE columns). -/
structure Date where
  year : Nat
  month : Nat
  day : Nat
deriving DecidableEq, Repr

/-- Numeric key realizing the calendar order on dates (lexicographic
year/month/day, as SQL `ORDER BY date` orders DATE values). -/
def Date.key (d : Date) : Nat :=
  (d.year * 100 + d.month) * 100 + d.day

/-- A row of the `expenses` table: id SERIAL PRIMARY KEY, date, amount,
category, payment_method (backend.py lines 40-46). -/
structure Expense where
  id : Nat
  date : Date
  amount : ℚ
  category : String
  payment_method : String
deriving DecidableEq, Repr

/-- A row of the `budgets` table: category UNIQUE, monthly_budget,
annual_budget (backend.py lines 49-54; the SERIAL id plays no role in any
operation, so it is omitted). -/
structure Budget where
  category : String
  monthly_budget : ℚ
  annual_budget : ℚ
deriving DecidableEq, Repr

/-- A row of the `income` table (backend.py lines 57-62). -/
structure Income where
  id : Nat
  date : Date
  amount : ℚ
  source : String
deriving DecidableEq, Repr

/-- The persistent state: the three tables plus the next SERIAL value for
`expenses.id`. -/
structure DB where
  expenses : List Expense
  budgets : List Budget
  income : List Income
  next_id : Nat
deriving DecidableEq, Repr

/-- A psycopg2-level database error (`psycopg2.Error`). -/
inductive PgError where
  | queryError
deriving DecidableEq, Repr

/-- The freshly created database: empty tables, SERIAL counter at 1. -/
def emptyDB : DB := ⟨[], [], [], 1⟩

/-- `add_expense` (backend.py lines 74-86): INSERT a new expenses row with a
fresh SERIAL id; on `psycopg2.Error` roll back and return `False`. -/
def add_expense (err : Bool) (st : DB) (date : Date) (amount : ℚ)
    (category payment_method : String) : Except PgError (DB × Bool) :=
  let attempt : Except PgError DB :=
    if err then .error .queryError
    else .ok { st with
      expenses := st.expenses ++ [⟨st.next_id, date, amount, category, payment_method⟩],
      next_id := st.next_id + 1 }
  match attempt with
  | .ok st1 => .ok (st1, true)
  | .error _ => .ok (st, false)

/-- The comparator of `ORDER BY date DESC`: `a` comes no later than `b` when
`b`'s date is at most `a`'s. -/
def dateDescending (a b : Expense) : Bool :=
  decide (b.date.key ≤ a.date.key)

/-- `get_expenses` (backend.py lines 88-98): SELECT all expenses rows
ORDER BY date DESC; on `psycopg2.Error` return `[]`. -/
def get_expenses (err : Bool) (st : DB) : Except PgError (List Expense) :=
  let attempt : Except PgError (List Expense) :=
    if err then .error .queryError
    else .ok (st.expenses.mergeSort dateDescending)
  match attempt with
  | .ok rows => .ok rows
  | .error _ => .ok []

/-- `update_expense` (backend.py lines 100-112): UPDATE the row WHERE id
matches (zero matching rows update nothing and raise no error — the method
still returns `True`); on `psycopg2.Error` roll back and return `False`. -/
def update_expense (err : Bool) (st : DB) (expense_id : Nat) (date : Date)
    (amount : ℚ) (category payment_method : String) : Except PgError (DB × Bool) :=
  let attempt : Except PgError DB :=
    if err then .error .queryError
    else .ok { st with
      expenses := st.expenses.map fun e =>
        if e.id = expense_id then ⟨e.id, date, amount, category, payment_method⟩ else e }
  match attempt with
  | .ok st1 => .ok (st1, true)
  | .error _ => .ok (st, false)

/-- `delete_expense` (backend.py lines 114-126): DELETE the rows WHERE id
matches (zero matching rows raise no error — the method still returns
`True`); on `psycopg2.Error` roll back and return `False`. -/
def delete_expense (err : Bool) (st : DB) (expense_id : Nat) :
    Except PgError (DB × Bool) :=
  let attempt : Except PgError DB :=
    if err then .error .queryError
    else .ok { st with
      expenses := st.expenses.filter fun e => !(e.id == expense_id) }
  match attempt with
  | .ok st1 => .ok (st1, true)
  | .error _ => .ok (st, false)

/-- The row update of `INSERT ... ON CONFLICT (category) DO UPDATE` under the
UNIQUE(category) constraint: overwrite the conflicting row's two budget
fields if one exists, otherwise append a new row. -/
def upsertRows (bs : List Budget) (category : String) (monthly_budget annual_budget : ℚ) :
    List Budget :=
  match bs with
  | [] => [⟨category, monthly_budget, annual_budget⟩]
  | b :: rest =>
    if b.category = category then ⟨category, monthly_budget, annual_budget⟩ :: rest
    else b :: upsertRows rest category monthly_budget annual_budget

/-- `add_budget` (backend.py lines 128-146): INSERT INTO budgets ON CONFLICT
(category) DO UPDATE both budget fields; on `psycopg2.Error` roll back and
return `False`. -/
def add_budget (err : Bool) (st : DB) (category : String)
    (monthly_budget annual_budget : ℚ) : Except PgError (DB × Bool) :=
  let attempt : Except PgError DB :=
    if err then .error .queryError
    else .ok { st with budgets := upsertRows st.budgets category monthly_budget annual_budget }
  match attempt with
  | .ok st1 => .ok (st1, true)
  | .error _ => .ok (st, false)

/-- `get_budgets` (backend.py lines 148-158): SELECT category,
monthly_budget, annual_budget FROM budgets; on `psycopg2.Error` return `[]`. -/
def get_budgets (err : Bool) (st : DB) : Except PgError (List Budget) :=
  let attempt : Except PgError (List Budget) :=
    if err then .error .queryError
    else .ok st.budgets
  match attempt with
  | .ok rows => .ok rows
  | .error _ => .ok []

/-- The WHERE clause of `get_monthly_spending_by_category`: EXTRACT(MONTH FROM
date) = month AND EXTRACT(YEAR FROM date) = year. -/
def inMonth (month year : Nat) (e : Expense) : Bool :=
  decide (e.date.month = month) && decide (e.date.year = year)

/-- `SUM(amount)` of the expenses in `es` belonging to category `c`. -/
def categorySum (es : List Expense) (c : String) : ℚ :=
  ((es.filter fun e => decide (e.category = c)).map (·.amount)).sum

/-- The distinct categories occurring in `es` (the groups of `GROUP BY
category`). -/
def categoriesOf (es : List Expense) : List String :=
  (es.map (·.category)).dedup

/-- `get_monthly_spending_by_category` (backend.py lines 160-174): SELECT
category, SUM(amount) FROM expenses WHERE the date falls in the given
month/year GROUP BY category; on `psycopg2.Error` return `[]`. -/
def get_monthly_spending_by_category (err : Bool) (st : DB) (month year : Nat) :
    Except PgError (List (String × ℚ)) :=
  let attempt : Except PgError (List (String × ℚ)) :=
    if err then .error .queryError
    else
      let rows := st.expenses.filter (inMonth month year)
      .ok ((categoriesOf rows).map fun c => (c, categorySum rows c))
  match attempt with
  | .ok rows => .ok rows
  | .error _ => .ok []

/-- `get_total_income` (backend.py lines 176-186): SELECT SUM(amount) FROM
income, with `or 0.0` turning SQL NULL (empty table) into 0.0; on
`psycopg2.Error` return 0.0.  (When income rows exist but sum to 0, Python's
`x or 0.0` also yields 0.0 — the same value.) -/
def get_total_income (err : Bool) (st : DB) : Except PgError ℚ :=
  let attempt : Except PgError ℚ :=
    if err then .error .queryError
    else .ok ((st.income.map (·.amount)).sum)
  match attempt with
  | .ok q => .ok q
  | .error _ => .ok 0

/-- A value of the Python dict built by `get_business_insights`: a SQL
numeric aggregate, a SQL integer count, or a category string. -/
inductive SqlValue where
  | num (q : ℚ)
  | int (n : Nat)
  | str (s : String)
deriving DecidableEq, Repr

/-- `SELECT SUM(amount) FROM expenses`, with Python's `or 0.0` turning the
NULL of an empty table into 0.0. -/
def sumAmounts (es : List Expense) : ℚ :=
  (es.map (·.amount)).sum

/-- `SELECT AVG(amount) FROM expenses` with `or 0.0`: mean of the row
amounts, 0.0 on an empty table. -/
def avgAmount (es : List Expense) : ℚ :=
  match es with
  | [] => 0
  | _ => sumAmounts es / es.length

/-- `SELECT MAX(amount) FROM expenses` with `or 0.0`: greatest amount, 0.0 on
an empty table. -/
def maxAmount (es : List Expense) : ℚ :=
  match es with
  | [] => 0
  | e :: rest => rest.foldl (fun acc x => max acc x.amount) e.amount

/-- `SELECT MIN(amount) FROM expenses` with `or 0.0`: least amount, 0.0 on an
empty table. -/
def minAmount (es : List Expense) : ℚ :=
  match es with
  | [] => 0
  | e :: rest => rest.foldl (fun acc x => min acc x.amount) e.amount

/-- The fold of `ORDER BY SUM(amount) DESC LIMIT 1`: starting from candidate
`c`, keep the category with the larger `categorySum` (first seen wins ties). -/
def pickMost (es : List Expense) (c : String) (cs : List String) : String :=
  cs.foldl (fun best c2 => if categorySum es best < categorySum es c2 then c2 else best) c

/-- `SELECT category FROM expenses GROUP BY category ORDER BY SUM(amount)
DESC LIMIT 1`, with `fetchone()` yielding None — hence the "N/A" sentinel —
when there are no expenses (backend.py lines 223-225). -/
def most_spent_category (es : List Expense) : String :=
  match categoriesOf es with
  | [] => "N/A"
  | c :: cs => pickMost es c cs

/-- The eight entries of the `insights` dict, in the order
`get_business_insights` inserts them (backend.py lines 192-225). -/
def insightsEntries (st : DB) : List (String × SqlValue) :=
  [("total_expenses", .num (sumAmounts st.expenses)),
   ("avg_daily_expense", .num (avgAmount st.expenses)),
   ("max_expense", .num (maxAmount st.expenses)),
   ("min_expense", .num (minAmount st.expenses)),
   ("total_transactions", .int st.expenses.length),
   ("total_monthly_budget", .num ((st.budgets.map (·.monthly_budget)).sum)),
   ("total_income", .num ((st.income.map (·.amount)).sum)),
   ("most_spent_category", .str (most_spent_category st.expenses))]

/-- `get_business_insights` (backend.py lines 188-231): a try-block of eight
statements filling the dict in order; `failAt = some k` with `k < 8` means
statement `k` raises `psycopg2.Error`, in which case the partially built
local dict is discarded and the except-branch returns `{}`. -/
def get_business_insights (failAt : Option Nat) (st : DB) :
    Except PgError (List (String × SqlValue)) :=
  let attempt : Except PgError (List (String × SqlValue)) :=
    match failAt with
    | some k => if k < 8 then .error .queryError else .ok (insightsEntries st)
    | none => .ok (insightsEntries st)
  match attempt with
  | .ok r => .ok r
  | .error _ => .ok []

/-! Frontend: the budget-status tiering of `display_manage_budgets`
(frontend.py lines 113-129). -/

/-- The three alert outcomes of the `if/elif/else` in frontend.py lines
124-129; `exceeded` carries the displayed overrun `-remaining_budget`. -/
inductive BudgetStatus where
  | exceeded (over : ℚ)
  | nearingLimit
  | withinBudget
deriving DecidableEq, Repr

/-- `current_spending = next((amount for category, amount in spending if
category == budget_category), 0)` (frontend.py line 118): the summed amount
reported for `cat`, defaulting to 0 when no row for `cat` exists. -/
def lookupSpending (spending : List (String × ℚ)) (cat : String) : ℚ :=
  match spending.find? (fun p => decide (p.1 = cat)) with
  | some p => p.2
  | none => 0

/-- A Python runtime error escaping the frontend code (it has no
try/except). -/
inductive PyError where
  | typeError
deriving DecidableEq, Repr

/-- `monthly_budget * 0.2` at frontend.py line 126: `monthly_budget` reaches
this expression as a `decimal.Decimal` (psycopg2's default mapping for the
NUMERIC budget columns; the repo registers no adapter), and `0.2` is a
Python float.  `Decimal.__mul__` returns NotImplemented for a float operand,
so this multiplication unconditionally raises `TypeError`, whatever the
value of `monthly_budget`. -/
def mulDecimalFloat (_q : ℚ) : Except PyError ℚ :=
  .error .typeError

/-- The tier logic of frontend.py lines 119-129:
`remaining = monthly_budget - current_spending`; `remaining < 0` (a
Decimal-int comparison, which works) means exceeded by `-remaining`;
otherwise the elif condition evaluates `monthly_budget * 0.2`, which raises
`TypeError` (see `mulDecimalFloat`), so the "nearing limit" and "within
budget" branches are dead code: the page crashes instead. -/
def budgetStatus (monthly_budget current_spending : ℚ) :
    Except PyError BudgetStatus :=
  let remaining := monthly_budget - current_spending
  if remaining < 0 then .ok (.exceeded (-remaining))
  else
    match mulDecimalFloat monthly_budget with
    | .ok threshold =>
      if remaining < threshold then .ok .nearingLimit else .ok .withinBudget
    | .error e => .error e

/-! Concrete states used to instantiate the theorems. -/

/-- A store holding a single expense with id 1. -/
def oneDB : DB := ⟨[⟨1, ⟨2024, 1, 10⟩, 5, "Food", "Cash"⟩], [], [], 2⟩

/-- `oneDB` after its only expense has been deleted. -/
def oneDBdeleted : DB := ⟨[], [], [], 2⟩

/-- The store of the spec's worked example: expenses 100 and 50 in "Food",
30 in "Transport". -/
def exampleDB : DB :=
  ⟨[⟨1, ⟨2024, 1, 5⟩, 100, "Food", "Cash"⟩,
    ⟨2, ⟨2024, 1, 6⟩, 50, "Food", "Cash"⟩,
    ⟨3, ⟨2024, 1, 7⟩, 30, "Transport", "Cash"⟩], [], [], 4⟩

/-! Helper lemmas. -/

/-- An UPDATE whose WHERE clause matches no row leaves the table unchanged. -/
lemma map_update_id (l : List Expense) (i : Nat) (d : Date) (amt : ℚ) (c p : String)
    (h : ∀ e ∈ l, e.id ≠ i) :
    (l.map fun e => if e.id = i then ⟨e.id, d, amt, c, p⟩ else e) = l := by
  induction l with
  | nil => rfl
  | cons x xs ih =>
    have hx : x.id ≠ i := h x (List.mem_cons_self x xs)
    simp only [List.map_cons, if_neg hx]
    rw [ih fun e he => h e (List.mem_cons_of_mem x he)]

/-- The fold of `ORDER BY SUM(amount) DESC LIMIT 1` returns one of its
candidates, and its `categorySum` dominates every candidate's. -/
lemma pickMost_spec (es : List Expense) (cs : List String) :
    ∀ c, pickMost es c cs ∈ c :: cs ∧
      ∀ x ∈ c :: cs, categorySum es x ≤ categorySum es (pickMost es c cs) := by
  induction cs with
  | nil =>
    intro c
    refine ⟨List.mem_cons_self c [], ?_⟩
    intro x hx
    rcases List.mem_cons.mp hx with h | h
    · subst h; exact le_refl _
    · exact absurd h (List.not_mem_nil x)
  | cons c2 cs ih =>
    intro c
    have hunfold : pickMost es c (c2 :: cs) =
        pickMost es (if categorySum es c < categorySum es c2 then c2 else c) cs := rfl
    by_cases hlt : categorySum es c < categorySum es c2
    · rw [if_pos hlt] at hunfold
      obtain ⟨hm, hge⟩ := ih c2
      constructor
      · rw [hunfold]; exact List.mem_cons_of_mem c hm
      · intro x hx
        rw [hunfold]
        rcases List.mem_cons.mp hx with h | h
        · subst h
          exact le_trans (le_of_lt hlt) (hge c2 (List.mem_cons_self c2 cs))
        · exact hge x h
    · rw [if_neg hlt] at hunfold
      obtain ⟨hm, hge⟩ := ih c
      constructor
      · rw [hunfold]
        rcases List.mem_cons.mp hm with h | h
        · rw [h]; exact List.mem_cons_self _ _
        · exact List.mem_cons_of_mem c (List.mem_cons_of_mem c2 h)
      · intro x hx
        rw [hunfold]
        rcases List.mem_cons.mp hx with h | h
        · subst h; exact hge x (List.mem_cons_self _ _)
        rcases List.mem_cons.mp h with h2 | h2
        · subst h2
          exact le_trans (not_lt.mp hlt) (hge c (List.mem_cons_self _ _))
        · exact hge x (List.mem_cons_of_mem c h2)

/-- Under the UNIQUE(category) invariant (at most one row for `cat`), an
upsert leaves exactly the freshly written row for `cat`. -/
lemma filter_upsertRows (cat : String) (m a : ℚ) :
    ∀ bs : List Budget, bs.countP (fun b => decide (b.category = cat)) ≤ 1 →
      (upsertRows bs cat m a).filter (fun b => decide (b.category = cat))
        = [⟨cat, m, a⟩] := by
  intro bs
  induction bs with
  | nil =>
    intro _
    simp [upsertRows]
  | cons b rest ih =>
    intro hcount
    by_cases hb : b.category = cat
    · have hu : upsertRows (b :: rest) cat m a = ⟨cat, m, a⟩ :: rest := by
        simp only [upsertRows]; rw [if_pos hb]
      have hc := List.countP_cons (fun b => decide (b.category = cat)) b rest
      rw [hc, if_pos (by simp [hb])] at hcount
      have h0 : rest.countP (fun b => decide (b.category = cat)) = 0 := by omega
      have hrest : rest.filter (fun b => decide (b.category = cat)) = [] :=
        List.filter_eq_nil_iff.mpr (List.countP_eq_zero.mp h0)
      rw [hu, List.filter_cons, if_pos (by simp), hrest]
    · have hu : upsertRows (b :: rest) cat m a = b :: upsertRows rest cat m a := by
        simp only [upsertRows]; rw [if_neg hb]
      have hc := List.countP_cons (fun b => decide (b.category = cat)) b rest
      rw [hc, if_neg (by simp [hb])] at hcount
      rw [hu, List.filter_cons, if_neg (by simp [hb])]
      exact ih (by omega)

/-- `ORDER BY date DESC`'s comparator is transitive. -/
lemma dateDescending_trans (a b c : Expense)
    (hab : dateDescending a b = true) (hbc : dateDescending b c = true) :
    dateDescending a c = true := by
  simp only [dateDescending, decide_eq_true_eq] at *
  omega

/-- `ORDER BY date DESC`'s comparator is total. -/
lemma dateDescending_total (a b : Expense) :
    (dateDescending a b || dateDescending b a) = true := by
  simp only [dateDescending, Bool.or_eq_true, decide_eq_true_eq]
  omega

/-! The claims. -/

/-- Claim C1, code bug: the claimed tiering is the evident intent, but the
code cannot execute it past the first branch.  At B=100, S=85 the claim says
"nearing limit" and at B=100, S=70 "within budget"; the code instead raises
`TypeError` at frontend.py line 126 (`monthly_budget * 0.2`, a
Decimal-by-float multiplication), because once `remaining < 0` is false the
elif condition is evaluated.  Only the B=100, S=120 vector short-circuits
into the "exceeded by 20" branch and behaves as the claim states.  The
spending lookup itself does default to 0 for a category with no row. -/
theorem claim_C1 :
    budgetStatus 100 85 = .error .typeError ∧
    budgetStatus 100 70 = .error .typeError ∧
    budgetStatus 100 120 = .ok (.exceeded 20) ∧
    (∀ B S : ℚ, ¬B - S < 0 → budgetStatus B S = .error .typeError) ∧
    (∀ (spending : List (String × ℚ)) (cat : String),
      (∀ q ∈ spending, q.1 ≠ cat) → lookupSpending spending cat = 0) := by
  refine ⟨by norm_num [budgetStatus, mulDecimalFloat],
    by norm_num [budgetStatus, mulDecimalFloat],
    by norm_num [budgetStatus], ?_, ?_⟩
  · intro B S h
    simp [budgetStatus, mulDecimalFloat, h]
  · intro spending cat h
    unfold lookupSpending
    have hnone : spending.find? (fun q => decide (q.1 = cat)) = none := by
      rw [List.find?_eq_none]
      intro q hq
      simp [h q hq]
    rw [hnone]

/-- Witness for C1 at concrete inputs. -/
theorem claim_C1_witness :
    budgetStatus 3 1 = Except.error PyError.typeError ∧
    lookupSpending [("Transport", 30)] "Food" = 0 :=
  ⟨claim_C1.2.2.2.1 3 1 (by norm_num),
   claim_C1.2.2.2.2 [("Transport", 30)] "Food" (by simp)⟩

/-- Claim C2, counterexample to the claim as stated: updating the absent id 1
in the empty store returns success (`True`), not failure — SQL UPDATE with a
non-matching WHERE clause affects zero rows and raises no error. -/
theorem claim_C2_counterexample :
    update_expense false emptyDB 1 ⟨2024, 1, 15⟩ 5 "Food" "Cash" = .ok (emptyDB, true) ∧
    update_expense false emptyDB 1 ⟨2024, 1, 15⟩ 5 "Food" "Cash" ≠ .ok (emptyDB, false) := by
  refine ⟨rfl, ?_⟩
  intro h
  simp [update_expense, emptyDB] at h

/-- Claim C2 (amended): for an id that is absent, `update_expense` still
returns success with the store unchanged (a no-op); for an id that is
present it returns success and the record's fields take the new values. -/
theorem claim_C2 :
    (∀ (st : DB) (i : Nat) (d : Date) (amt : ℚ) (c p : String),
      (∀ e ∈ st.expenses, e.id ≠ i) →
      update_expense false st i d amt c p = .ok (st, true)) ∧
    (∀ (st : DB) (i : Nat) (d : Date) (amt : ℚ) (c p : String) (e : Expense),
      e ∈ st.expenses → e.id = i →
      ∃ st', update_expense false st i d amt c p = .ok (st', true) ∧
        (⟨e.id, d, amt, c, p⟩ : Expense) ∈ st'.expenses) := by
  constructor
  · intro st i d amt c p h
    have hstep : update_expense false st i d amt c p =
        .ok ({ st with expenses :=
          st.expenses.map fun e => if e.id = i then ⟨e.id, d, amt, c, p⟩ else e }, true) := rfl
    rw [hstep, map_update_id st.expenses i d amt c p h]
  · intro st i d amt c p e he hei
    refine ⟨_, rfl, ?_⟩
    exact List.mem_map.mpr ⟨e, he, by rw [if_pos hei]⟩

/-- Witness for C2 at concrete inputs. -/
theorem claim_C2_witness :
    update_expense false emptyDB 1 ⟨2024, 1, 15⟩ 5 "Food" "Cash" = .ok (emptyDB, true) :=
  claim_C2.1 emptyDB 1 ⟨2024, 1, 15⟩ 5 "Food" "Cash" (by intro e he; simp [emptyDB] at he)

/-- Claim C3, counterexample to the claim as stated: deleting id 1 a second
time returns success (`True`), not failure — SQL DELETE with a non-matching
WHERE clause affects zero rows and raises no error. -/
theorem claim_C3_counterexample :
    delete_expense false oneDB 1 = .ok (oneDBdeleted, true) ∧
    delete_expense false oneDBdeleted 1 = .ok (oneDBdeleted, true) ∧
    delete_expense false oneDBdeleted 1 ≠ .ok (oneDBdeleted, false) := by
  refine ⟨rfl, rfl, ?_⟩
  intro h
  simp [delete_expense, oneDBdeleted] at h

/-- Claim C3 (amended): `delete_expense` of a present id succeeds and a
subsequent `get_expenses` excludes that id; a second `delete_expense` of the
same id also returns success and leaves the store state unchanged (a no-op,
not a failure). -/
theorem claim_C3 (st : DB) (i : Nat) :
    ∃ st', delete_expense false st i = .ok (st', true) ∧
      (∀ es, get_expenses false st' = .ok es → ∀ e ∈ es, e.id ≠ i) ∧
      delete_expense false st' i = .ok (st', true) := by
  refine ⟨_, rfl, ?_, ?_⟩
  · intro es hes e he
    have hesq : ((st.expenses.filter fun e => !(e.id == i)).mergeSort dateDescending) = es :=
      Except.ok.inj hes
    rw [← hesq] at he
    have hmem : e ∈ st.expenses.filter fun e => !(e.id == i) :=
      List.mem_mergeSort.mp he
    have := List.of_mem_filter hmem
    simpa using this
  · have hself : ((st.expenses.filter fun e => !(e.id == i)).filter fun e => !(e.id == i))
        = st.expenses.filter fun e => !(e.id == i) :=
      List.filter_eq_self.mpr fun a ha => (List.mem_filter.mp ha).2
    have hstep : delete_expense false
        ({ st with expenses := st.expenses.filter fun e => !(e.id == i) }) i =
        .ok ({ st with expenses :=
          (st.expenses.filter fun e => !(e.id == i)).filter fun e => !(e.id == i) }, true) := rfl
    rw [hstep, hself]

/-- Witness for C3 at a concrete input. -/
theorem claim_C3_witness :
    ∃ st', delete_expense false oneDB 1 = .ok (st', true) ∧
      (∀ es, get_expenses false st' = .ok es → ∀ e ∈ es, e.id ≠ 1) ∧
      delete_expense false st' 1 = .ok (st', true) :=
  claim_C3 oneDB 1

/-- Claim C4: whenever the persistence layer raises during a store
operation, the operation does not propagate the exception (every result is
`Except.ok`) and returns its failure sentinel: `False` with the state rolled
back for the mutations, `[]` for the queries, 0.0 for `get_total_income`,
and `{}` for `get_business_insights`. -/
theorem claim_C4 (st : DB) (i month year k : Nat) (d : Date) (amt m a : ℚ)
    (c p : String) (hk : k < 8) :
    add_expense true st d amt c p = .ok (st, false) ∧
    update_expense true st i d amt c p = .ok (st, false) ∧
    delete_expense true st i = .ok (st, false) ∧
    add_budget true st c m a = .ok (st, false) ∧
    get_expenses true st = .ok [] ∧
    get_budgets true st = .ok [] ∧
    get_monthly_spending_by_category true st month year = .ok [] ∧
    get_total_income true st = .ok 0 ∧
    get_business_insights (some k) st = .ok [] := by
  refine ⟨rfl, rfl, rfl, rfl, rfl, rfl, rfl, rfl, ?_⟩
  simp [get_business_insights, hk]

/-- Witness for C4 at concrete inputs. -/
theorem claim_C4_witness :
    add_expense true emptyDB ⟨2024, 1, 1⟩ 5 "Food" "Cash" = .ok (emptyDB, false) ∧
    get_business_insights (some 0) emptyDB = .ok [] := by
  have h := claim_C4 emptyDB 1 1 2024 0 ⟨2024, 1, 1⟩ 5 10 20 "Food" "Cash" (by decide)
  exact ⟨h.1, h.2.2.2.2.2.2.2.2⟩

/-- Claim C5: on an empty expense set `get_business_insights` returns 0 for
every expense-derived numeric field and the "N/A" sentinel for
most_spent_category; total_monthly_budget and total_income are likewise 0
when budgets/income are empty.  No field is absent or null: the result binds
every key to a concrete `SqlValue`. -/
theorem claim_C5 (st : DB) (h : st.expenses = []) :
    ∃ r, get_business_insights none st = .ok r ∧
      r.lookup "total_expenses" = some (.num 0) ∧
      r.lookup "avg_daily_expense" = some (.num 0) ∧
      r.lookup "max_expense" = some (.num 0) ∧
      r.lookup "min_expense" = some (.num 0) ∧
      r.lookup "total_transactions" = some (.int 0) ∧
      r.lookup "most_spent_category" = some (.str "N/A") ∧
      (st.budgets = [] → r.lookup "total_monthly_budget" = some (.num 0)) ∧
      (st.income = [] → r.lookup "total_income" = some (.num 0)) := by
  refine ⟨insightsEntries st, rfl, ?_, ?_, ?_, ?_, ?_, ?_, ?_, ?_⟩
  · simp [insightsEntries, List.lookup, sumAmounts, h]
  · simp [insightsEntries, List.lookup, avgAmount, h]
  · simp [insightsEntries, List.lookup, maxAmount, h]
  · simp [insightsEntries, List.lookup, minAmount, h]
  · simp [insightsEntries, List.lookup, h]
  · simp [insightsEntries, List.lookup, most_spent_category, categoriesOf, h]
  · intro hb; simp [insightsEntries, List.lookup, hb]
  · intro hi; simp [insightsEntries, List.lookup, hi]

/-- Witness for C5 at the empty store. -/
theorem claim_C5_witness :
    ∃ r, get_business_insights none emptyDB = .ok r ∧
      r.lookup "total_expenses" = some (.num 0) ∧
      r.lookup "avg_daily_expense" = some (.num 0) ∧
      r.lookup "max_expense" = some (.num 0) ∧
      r.lookup "min_expense" = some (.num 0) ∧
      r.lookup "total_transactions" = some (.int 0) ∧
      r.lookup "most_spent_category" = some (.str "N/A") ∧
      (emptyDB.budgets = [] → r.lookup "total_monthly_budget" = some (.num 0)) ∧
      (emptyDB.income = [] → r.lookup "total_income" = some (.num 0)) :=
  claim_C5 emptyDB rfl

/-- Claim C6: on a non-empty expense set, `most_spent_category` is a category
occurring among the expenses whose summed amount is maximal over all
occurring categories; on the worked example ({100, Food}, {50, Food},
{30, Transport}) the insights are total 180, max 100, min 30, 3 transactions,
most spent "Food". -/
theorem claim_C6 :
    (∀ st : DB, st.expenses ≠ [] →
      most_spent_category st.expenses ∈ categoriesOf st.expenses ∧
      ∀ c ∈ categoriesOf st.expenses,
        categorySum st.expenses c ≤ categorySum st.expenses (most_spent_category st.expenses)) ∧
    (∃ r, get_business_insights none exampleDB = .ok r ∧
      r.lookup "total_expenses" = some (.num 180) ∧
      r.lookup "max_expense" = some (.num 100) ∧
      r.lookup "min_expense" = some (.num 30) ∧
      r.lookup "total_transactions" = some (.int 3) ∧
      r.lookup "most_spent_category" = some (.str "Food")) := by
  constructor
  · intro st hne
    cases hcat : categoriesOf st.expenses with
    | nil =>
      exfalso
      obtain ⟨e, he⟩ := List.exists_mem_of_ne_nil st.expenses hne
      have hmem : e.category ∈ categoriesOf st.expenses :=
        List.mem_dedup.mpr (List.mem_map_of_mem (·.category) he)
      rw [hcat] at hmem
      exact List.not_mem_nil _ hmem
    | cons c cs =>
      have hms : most_spent_category st.expenses = pickMost st.expenses c cs := by
        unfold most_spent_category
        rw [hcat]
      obtain ⟨hm, hge⟩ := pickMost_spec st.expenses cs c
      rw [hms]
      exact ⟨hm, fun x hx => hge x hx⟩
  · have hsum : sumAmounts exampleDB.expenses = 180 := by
      norm_num [sumAmounts, exampleDB]
    have hmax : maxAmount exampleDB.expenses = 100 := by
      norm_num [maxAmount, exampleDB, max_def]
    have hmin : minAmount exampleDB.expenses = 30 := by
      norm_num [minAmount, exampleDB, min_def]
    have hcats : categoriesOf exampleDB.expenses = ["Food", "Transport"] := by decide
    have hfilterF : exampleDB.expenses.filter (fun e => decide (e.category = "Food"))
        = [⟨1, ⟨2024, 1, 5⟩, 100, "Food", "Cash"⟩, ⟨2, ⟨2024, 1, 6⟩, 50, "Food", "Cash"⟩] := by
      decide
    have hfilterT : exampleDB.expenses.filter (fun e => decide (e.category = "Transport"))
        = [⟨3, ⟨2024, 1, 7⟩, 30, "Transport", "Cash"⟩] := by
      decide
    have hf : categorySum exampleDB.expenses "Food" = 150 := by
      unfold categorySum
      rw [hfilterF]
      norm_num
    have ht : categorySum exampleDB.expenses "Transport" = 30 := by
      unfold categorySum
      rw [hfilterT]
      norm_num
    have hpick : pickMost exampleDB.expenses "Food" ["Transport"] = "Food" := by
      unfold pickMost
      simp only [List.foldl_cons, List.foldl_nil]
      rw [hf, ht]
      norm_num
    have hmost : most_spent_category exampleDB.expenses = "Food" := by
      unfold most_spent_category
      rw [hcats]
      exact hpick
    refine ⟨insightsEntries exampleDB, rfl, ?_, ?_, ?_, ?_, ?_⟩
    · simp [insightsEntries, List.lookup, hsum]
    · simp [insightsEntries, List.lookup, hmax]
    · simp [insightsEntries, List.lookup, hmin]
    · simp [insightsEntries, List.lookup, exampleDB]
    · simp [insightsEntries, List.lookup, hmost]

/-- Witness for C6 at the worked example. -/
theorem claim_C6_witness :
    most_spent_category exampleDB.expenses ∈ categoriesOf exampleDB.expenses ∧
    ∀ c ∈ categoriesOf exampleDB.expenses,
      categorySum exampleDB.expenses c ≤
        categorySum exampleDB.expenses (most_spent_category exampleDB.expenses) :=
  claim_C6.1 exampleDB (by simp [exampleDB])

/-- Claim C7: under the UNIQUE(category) invariant, two successive
`add_budget` upserts on the same category both succeed and leave exactly one
budget row for that category, holding the second call's values. -/
theorem claim_C7 (st : DB) (cat : String) (m1 a1 m2 a2 : ℚ)
    (h : st.budgets.countP (fun b => decide (b.category = cat)) ≤ 1) :
    ∃ st1 st2, add_budget false st cat m1 a1 = .ok (st1, true) ∧
      add_budget false st1 cat m2 a2 = .ok (st2, true) ∧
      st2.budgets.filter (fun b => decide (b.category = cat)) = [⟨cat, m2, a2⟩] := by
  refine ⟨_, _, rfl, rfl, ?_⟩
  have h1 := filter_upsertRows cat m1 a1 st.budgets h
  have hcount1 : (upsertRows st.budgets cat m1 a1).countP
      (fun b => decide (b.category = cat)) ≤ 1 := by
    rw [List.countP_eq_length_filter, h1]
    simp
  exact filter_upsertRows cat m2 a2 _ hcount1

/-- Witness for C7 at a concrete input. -/
theorem claim_C7_witness :
    ∃ st1 st2, add_budget false emptyDB "Food" 10 120 = .ok (st1, true) ∧
      add_budget false st1 "Food" 20 240 = .ok (st2, true) ∧
      st2.budgets.filter (fun b => decide (b.category = "Food")) = [⟨"Food", 20, 240⟩] :=
  claim_C7 emptyDB "Food" 10 120 20 240 (by simp [emptyDB])

/-- Claim C8: `get_expenses` returns every stored expense exactly once (a
permutation of the table), ordered descending by date; and under the SERIAL
invariant (every stored id is below the counter), a successful `add_expense`
makes the returned sequence include a record carrying a fresh id — one no
existing record has — with the given field values unchanged. -/
theorem claim_C8 :
    (∀ st : DB, ∃ es, get_expenses false st = .ok es ∧
      es.Perm st.expenses ∧
      es.Pairwise fun a b => b.date.key ≤ a.date.key) ∧
    (∀ (st : DB) (d : Date) (amt : ℚ) (c p : String),
      (∀ e ∈ st.expenses, e.id < st.next_id) →
      ∃ st' es, add_expense false st d amt c p = .ok (st', true) ∧
        get_expenses false st' = .ok es ∧
        (⟨st.next_id, d, amt, c, p⟩ : Expense) ∈ es ∧
        ∀ e ∈ st.expenses, e.id ≠ st.next_id) := by
  constructor
  · intro st
    refine ⟨_, rfl, List.mergeSort_perm st.expenses dateDescending, ?_⟩
    have hsorted := List.sorted_mergeSort dateDescending_trans dateDescending_total st.expenses
    exact hsorted.imp fun h => by simpa [dateDescending] using h
  · intro st d amt c p hfresh
    refine ⟨_, _, rfl, rfl, ?_, ?_⟩
    · exact List.mem_mergeSort.mpr (by simp)
    · intro e he
      exact Nat.ne_of_lt (hfresh e he)

/-- Witness for C8 at a concrete input. -/
theorem claim_C8_witness :
    ∃ st' es, add_expense false emptyDB ⟨2024, 2, 1⟩ 25 "Food" "Cash" = .ok (st', true) ∧
      get_expenses false st' = .ok es ∧
      (⟨emptyDB.next_id, ⟨2024, 2, 1⟩, 25, "Food", "Cash"⟩ : Expense) ∈ es ∧
      ∀ e ∈ emptyDB.expenses, e.id ≠ emptyDB.next_id :=
  claim_C8.2 emptyDB ⟨2024, 2, 1⟩ 25 "Food" "Cash" (by intro e he; simp [emptyDB] at he)

/-- Claim C9: `get_business_insights` is all-or-nothing — for every store
state and every failure position it returns either a mapping whose keys are
exactly the eight insight keys (in insertion order) or the empty mapping,
never a partially populated one. -/
theorem claim_C9 (failAt : Option Nat) (st : DB) :
    ∃ r, get_business_insights failAt st = .ok r ∧
      (r.map Prod.fst = ["total_expenses", "avg_daily_expense", "max_expense",
        "min_expense", "total_transactions", "total_monthly_budget",
        "total_income", "most_spent_category"] ∨ r = []) := by
  cases failAt with
  | none => exact ⟨insightsEntries st, rfl, Or.inl rfl⟩
  | some k =>
    by_cases hk : k < 8
    · refine ⟨[], ?_, Or.inr rfl⟩
      simp [get_business_insights, hk]
    · refine ⟨insightsEntries st, ?_, Or.inl rfl⟩
      simp [get_business_insights, hk]

/-- Claim C10: `add_expense` performs no input validation — for every
amount (zero and negative included) and every category and payment-method
string, it stores the record exactly as given, reports success, and the
record appears in a subsequent `get_expenses`. -/
theorem claim_C10 (st : DB) (d : Date) (amt : ℚ) (c p : String) :
    ∃ st' es, add_expense false st d amt c p = .ok (st', true) ∧
      st'.expenses = st.expenses ++ [⟨st.next_id, d, amt, c, p⟩] ∧
      get_expenses false st' = .ok es ∧
      (⟨st.next_id, d, amt, c, p⟩ : Expense) ∈ es := by
  refine ⟨_, _, rfl, rfl, rfl, ?_⟩
  exact List.mem_mergeSort.mpr (by simp)

end ExpenseTracker
